import Mathlib

/-!
Verification of the OctopusGermany API client core (src/lib/octopusGermany.js).

A shallow embedding of the token lifecycle manager, the retrying GraphQL
query executor, the TTL cache layer, and the fetch/mutation orchestration of
the ioBroker.calamari adapter core, together with proofs settling the
frozen claims about it.

Conventions of the embedding:
* JavaScript epoch times are `Int` (seconds in the TokenManager, milliseconds
  in the cache layer, matching the source).
* `Option` models JavaScript null/undefined/absent values; JS truthiness of
  strings and numbers ("" and 0 are falsy) is modelled explicitly at each
  site where the source relies on it.
* Network input is an environment: a function from the attempt index to the
  outcome of that axios call, and, for operations that may re-login and
  retry, a list of per-invocation environments.  An empty list left over
  while the source would recurse again is reported as the distinguished
  result `OpOut.more` ("the call is still retrying beyond the supplied
  environment").
* Throwing is explicit: executor results and operation results carry a
  thrown variant; every site where the source catches is a `match` on it.
-/

namespace OctopusGermany

/-! ## Raw GraphQL response model -/

/-- One entry of a GraphQL `errors` array: `extensions.errorCode` and `path`
(an absent `path` is the empty list, matching the `error.path || []` uses). -/
structure GqlError where
  errorCode : Option String := none
  path : List String := []
deriving DecidableEq, Repr

abbrev Product := String
abbrev Device := String
abbrev Dispatch := String

/-- An agreement inside `account.allProperties[..].electricityMalos[..]`. -/
structure Agreement where
  product : Option Product := none
deriving DecidableEq, Repr

structure Malo where
  agreements : Option (List Agreement) := none
deriving DecidableEq, Repr

structure PropertyData where
  electricityMalos : Option (List Malo) := none
deriving DecidableEq, Repr

structure AccountData where
  id : String := ""
  allProperties : Option (List PropertyData) := none
deriving DecidableEq, Repr

/-- One entry of `viewer.accounts` in the account discovery query. -/
structure AccountInfo where
  number : String
deriving DecidableEq, Repr

structure Viewer where
  accounts : Option (List AccountInfo) := none
deriving DecidableEq, Repr

/-- Decoded JWT payload: only the `exp` claim matters to the client. -/
structure JwtPayload where
  exp : Option Int := none
deriving DecidableEq, Repr

/-- Source `data.obtainKrakenToken` of the login mutation. -/
structure KrakenToken where
  token : Option String := none
  payload : Option JwtPayload := none
deriving DecidableEq, Repr

/-- Source `data.updateDeviceSmartControl` of the suspension mutation. -/
structure SmartControl where
  id : Option String := none
deriving DecidableEq, Repr

/-- The union of the `data` fields the client ever reads; each query response
populates a subset and leaves the rest absent, as in the untyped source. -/
structure GqlData where
  account : Option AccountData := none
  devices : Option (List Device) := none
  completedDispatches : Option (List Dispatch) := none
  plannedDispatches : Option (List Dispatch) := none
  viewer : Option Viewer := none
  obtainKrakenToken : Option KrakenToken := none
  updateDeviceSmartControl : Option SmartControl := none
deriving DecidableEq, Repr

/-- A parsed GraphQL response body: optional `data`, optional `errors`. -/
structure Response where
  data : Option GqlData := none
  errors : Option (List GqlError) := none
deriving DecidableEq, Repr

/-- What `_executeGraphQLQuery` hands back on the success path is
`response.data` of axios, i.e. the parsed body; `none` models a JSON null
body (the `response === null` check in fetchAllData). -/
abbrev Body := Option Response

def RATE_LIMIT_CODE : String := "KT-CT-1199"
def TOKEN_EXPIRED_CODE : String := "KT-CT-1124"
def NOT_FOUND_CODE : String := "KT-CT-4301"

/-! ## TokenManager (source lines 246-387) -/

def TOKEN_AUTO_REFRESH_INTERVAL : Int := 3600 * 1000
def TOKEN_REFRESH_MARGIN : Int := 300

/-- The `_token` / `_expiry` pair owned by the TokenManager. -/
structure TokenState where
  token : Option String := none
  expiry : Option Int := none
deriving DecidableEq, Repr

namespace TokenManager

/-- JS truthiness of a number slot: null/undefined and 0 are falsy. -/
def numTruthy : Option Int → Bool
  | some e => e != 0
  | none => false

/-- Source `get isValid` (source lines 326-343): fast path when `!this._token ||
!this._expiry` (null or "" token, null or 0 expiry), otherwise
`now < expiry - TOKEN_REFRESH_MARGIN`. -/
def isValid (s : TokenState) (now : Int) : Bool :=
  match s.token, s.expiry with
  | some t, some e =>
    if t = "" ∨ e = 0 then false
    else decide (now < e - TOKEN_REFRESH_MARGIN)
  | _, _ => false

/-- Source `setToken(token, expiry)` (source lines 350-378).  `decoded` is what
`jwt.decode(token)` returns: `none` models an undecodable token (decode
yields null, reading `.exp` then throws, and the catch installs the fallback
expiry `now + TOKEN_AUTO_REFRESH_INTERVAL / 1000`); `some p` models a decoded
payload whose exp claim is `p.exp` (possibly absent).  The `if (expiry)`
guard is JS truthiness, so an explicit 0 takes the decode path. -/
def setToken (now : Int) (decoded : Option JwtPayload) (tok : String)
    (expiry : Option Int) : TokenState :=
  if numTruthy expiry then { token := some tok, expiry := expiry }
  else
    match decoded with
    | some p => { token := some tok, expiry := p.exp }
    | none => { token := some tok, expiry := some (now + TOKEN_AUTO_REFRESH_INTERVAL / 1000) }

/-- Source `clear()` (source lines 383-386). -/
def clear (_s : TokenState) : TokenState := { token := none, expiry := none }

end TokenManager

/-! ## The retrying query executor (source lines 483-559) -/

/-- The outcome of one axios POST inside `_executeGraphQLQuery`:
* `ok body` - the promise resolved; `body` is the parsed response body;
* `httpErr errorData` - the promise rejected and `error.response.data` is a
  usable (non-null) body;
* `netErr` - the promise rejected with no usable response data
  (connection error, timeout). -/
inductive AttemptOutcome where
  | ok (body : Body)
  | httpErr (errorData : Response)
  | netErr
deriving DecidableEq, Repr

/-- Does an `errors` array contain the rate-limit code KT-CT-1199
(the `find` on lines 510-512 and 530-532)? -/
def hasRateLimitError (r : Response) : Bool :=
  match r.errors with
  | some es => es.any (fun e => e.errorCode == some RATE_LIMIT_CODE)
  | none => false

/-- The rate-limit check on the success path guards with
`response.data && response.data.errors` first, so a null body never
rate-limits. -/
def bodyHasRateLimit : Body → Bool
  | some r => hasRateLimitError r
  | none => false

/-- An attempt outcome that makes the executor retry (when the attempt
budget allows): a transport-level failure, or a body whose errors array
contains the rate-limit code (source lines 509-521, 526-541, 544-552). -/
def retryTrigger : AttemptOutcome → Bool
  | .ok body => bodyHasRateLimit body
  | .httpErr errorData => hasRateLimitError errorData
  | .netErr => true

/-- What the loop does with an outcome it does not retry: return the body
(line 524), return the error body (line 543), or rethrow the transport
error (line 553). -/
inductive ExecResult where
  | returned (body : Body)
  | threwNet
  | threwMax
deriving DecidableEq, Repr

def terminalOf : AttemptOutcome → ExecResult
  | .ok body => .returned body
  | .httpErr errorData => .returned (some errorData)
  | .netErr => .threwNet

/-- The observable behaviour of one `_executeGraphQLQuery` call: its result,
how many HTTP requests it sent, and the sleeps (ms) between them. -/
structure ExecTrace where
  result : ExecResult
  requests : Nat
  delays : List Int
deriving DecidableEq, Repr

def MAX_DELAY : Int := 30000

/-- Source `delay = Math.min(delay * 2, maxDelay)` (lines 519, 539, 550). -/
def nextDelay (d : Int) : Int := min (d * 2) MAX_DELAY

/-- The `while (attempt <= maxRetries)` loop of `_executeGraphQLQuery`
(source lines 494-556).  `i` is the number of attempts already made (the
value of `attempt` before the increment at line 495); every retry guard in
the body compares the incremented attempt `i + 1` against `maxRetries`.
`fuel` is `maxRetries + 1 - i` at every call, so the `fuel = 0` case is the
fall-through throw at line 558 (unreachable from `executeGraphQLQuery`,
exactly as in the source). -/
def execLoop (env : Nat → AttemptOutcome) (maxRetries : Nat) :
    Nat → Nat → Int → ExecTrace
  | 0, _, _ => { result := .threwMax, requests := 0, delays := [] }
  | fuel + 1, i, delay =>
    if retryTrigger (env i) = true ∧ i + 1 ≤ maxRetries then
      let t := execLoop env maxRetries fuel (i + 1) (nextDelay delay)
      { result := t.result, requests := t.requests + 1, delays := delay :: t.delays }
    else
      { result := terminalOf (env i), requests := 1, delays := [] }

/-- Source `_executeGraphQLQuery(query, variables, headers, maxRetries)`: the loop
started with `attempt = 0` and `delay = 1000` (source lines 490-492; the
default retry budget at line 483 is 3). -/
def executeGraphQLQuery (env : Nat → AttemptOutcome) (maxRetries : Nat) : ExecTrace :=
  execLoop env maxRetries (maxRetries + 1) 0 1000

/-! ## Cache and client state (source lines 438-442, 918-954, 1035-1048) -/

/-- One `this._cache[key]` slot: `{ data, timestamp, ttl }` (all epoch ms). -/
structure CacheEntry (α : Type) where
  data : Option α := none
  timestamp : Int := 0
  ttl : Int
deriving DecidableEq, Repr

/-- The value cached under "dispatches" by `fetchDispatches`. -/
structure Dispatches where
  plannedDispatches : List Dispatch := []
  completedDispatches : List Dispatch := []
deriving DecidableEq, Repr

/-- The fixed three-key cache created in `initialize` (source lines 438-442). -/
structure Cache where
  account : CacheEntry Unit
  devices : CacheEntry (List Device)
  dispatches : CacheEntry Dispatches
deriving DecidableEq, Repr

/-- The initial cache: empty entries with the per-key TTLs of line 438-442
(account 1 h, devices 5 min, dispatches 1 min, in milliseconds). -/
def initCache : Cache :=
  { account := { data := none, timestamp := 0, ttl := 3600000 }
  , devices := { data := none, timestamp := 0, ttl := 300000 }
  , dispatches := { data := none, timestamp := 0, ttl := 60000 } }

/-- Source `_isCacheValid(cacheKey)` (source lines 918-925): the entry must hold
non-null data and its age `now - timestamp` must be below its ttl.  (For the
list-valued entries an empty list is a truthy JS value, hence `some []` is
still data.) -/
def isCacheValid {α : Type} (e : CacheEntry α) (now : Int) : Bool :=
  match e.data with
  | none => false
  | some _ => decide (now - e.timestamp < e.ttl)

/-- Source `_getFromCache` (source lines 933-939). -/
def getFromCache {α : Type} (e : CacheEntry α) (now : Int) : Option α :=
  if isCacheValid e now then e.data else none

/-- Source `_setCache` (source lines 947-954): fresh data and timestamp, same ttl. -/
def setCacheEntry {α : Type} (e : CacheEntry α) (now : Int) (v : α) : CacheEntry α :=
  { data := some v, timestamp := now, ttl := e.ttl }

inductive CacheKey where
  | account
  | devices
  | dispatches
deriving DecidableEq, Repr

/-- The per-entry effect of `invalidateCache`: `timestamp = 0`, data and ttl
untouched (source line 1038). -/
def invalidateEntry {α : Type} (e : CacheEntry α) : CacheEntry α :=
  { e with timestamp := 0 }

/-- Source `invalidateCache(cacheKey)` (source lines 1035-1048): one key, or all
keys when called without one. -/
def invalidateCache (c : Cache) : Option CacheKey → Cache
  | some .account => { c with account := invalidateEntry c.account }
  | some .devices => { c with devices := invalidateEntry c.devices }
  | some .dispatches => { c with dispatches := invalidateEntry c.dispatches }
  | none =>
    { account := invalidateEntry c.account
    , devices := invalidateEntry c.devices
    , dispatches := invalidateEntry c.dispatches }

/-- The mutable state of one OctopusGermany client instance: the token
manager state, its `_refreshLock` flag, and the cache. -/
structure ClientState where
  tok : TokenState
  refreshLock : Bool := false
  cache : Cache
deriving DecidableEq, Repr

/-! ## login / ensureToken (source lines 565-696) -/

/-- The environment of one `login()` call:
* `execEnvs i` is the axios environment of the executor call made by login
  attempt `i` (each login attempt calls `_executeGraphQLQuery`, which itself
  retries with its default budget 3);
* `decoded i` is what `jwt.decode` returns for the token received at attempt
  `i`, consulted when the response carries no usable payload expiry;
* `afterWait` is the token state observed after the fixed 2-second wait of
  the single-flight guard: the login in flight on the other task may or may
  not have replaced the token by then. -/
structure LoginEnv where
  execEnvs : Nat → Nat → AttemptOutcome
  decoded : Nat → Option JwtPayload
  afterWait : TokenState

/-- What a `login()` call returns, together with the state it leaves behind
and how many authentication HTTP requests its executor calls sent. -/
structure LoginResult where
  ok : Bool
  st : ClientState
  authRequests : Nat
deriving Repr

def LOGIN_RETRIES : Nat := 5

/-- The `while (attempt < retries)` loop of `login` (source lines 599-677),
one iteration per `fuel`; `i` is the attempt index, `acc` the HTTP requests
sent so far.  Every outcome other than a response carrying a non-empty token
falls through to the backoff sleep and the next attempt: executor throws are
caught at line 672, a null body throws reading `response.errors` and is
caught the same way, a response with an `errors` array continues both in the
rate-limit branch (line 626) and the other-errors branch (line 634), a falsy
token or an unexpected shape logs and continues (lines 658-671).  When fuel
runs out the loop exits and login returns false (line 680); the `finally`
at line 682 releases the refresh lock on every path. -/
def loginLoop (now : Int) (env : LoginEnv) (st : ClientState) :
    Nat → Nat → Nat → LoginResult
  | 0, _, acc => { ok := false, st := { st with refreshLock := false }, authRequests := acc }
  | fuel + 1, i, acc =>
    let tr := executeGraphQLQuery (env.execEnvs i) 3
    let acc := acc + tr.requests
    match tr.result with
    | .threwNet => loginLoop now env st fuel (i + 1) acc
    | .threwMax => loginLoop now env st fuel (i + 1) acc
    | .returned none => loginLoop now env st fuel (i + 1) acc
    | .returned (some r) =>
      match r.errors with
      | some _ => loginLoop now env st fuel (i + 1) acc
      | none =>
        match r.data with
        | none => loginLoop now env st fuel (i + 1) acc
        | some d =>
          match d.obtainKrakenToken with
          | none => loginLoop now env st fuel (i + 1) acc
          | some kt =>
            match kt.token with
            | none => loginLoop now env st fuel (i + 1) acc
            | some t =>
              if t = "" then loginLoop now env st fuel (i + 1) acc
              else
                -- lines 650-655: use payload.exp when it is a truthy number,
                -- else fall back to decoding the JWT inside setToken
                let explicitExp : Option Int :=
                  match kt.payload with
                  | some p => if TokenManager.numTruthy p.exp then p.exp else none
                  | none => none
                { ok := true
                , st := { st with
                            tok := TokenManager.setToken now (env.decoded i) t explicitExp
                          , refreshLock := false }
                , authRequests := acc }

/-- Source `login()` (source lines 565-684).  Steps: return true at once if the
token is still valid (line 567); if `_refreshLock` is held, wait 2 s and
return true if the token observed afterwards is valid (lines 573-579) —
otherwise fall through, set the lock (line 581) and run the attempt loop on
the observed state. -/
def login (st : ClientState) (now : Int) (env : LoginEnv) : LoginResult :=
  if TokenManager.isValid st.tok now then
    { ok := true, st := st, authRequests := 0 }
  else if st.refreshLock then
    if TokenManager.isValid env.afterWait now then
      { ok := true, st := { st with tok := env.afterWait }, authRequests := 0 }
    else
      loginLoop now env { st with tok := env.afterWait, refreshLock := true } LOGIN_RETRIES 0 0
  else
    loginLoop now env { st with refreshLock := true } LOGIN_RETRIES 0 0

/-- Source `ensureToken()` (source lines 690-696). -/
def ensureToken (st : ClientState) (now : Int) (env : LoginEnv) : LoginResult :=
  if TokenManager.isValid st.tok now then
    { ok := true, st := st, authRequests := 0 }
  else
    login st now env

/-! ## fetchAllData (source lines 755-910) -/

/-- Operation results: a returned value, a thrown exception escaping the
public boundary, or `more` - the source would issue yet another retried
invocation beyond the per-invocation environments supplied. -/
inductive OpOut (α : Type) where
  | ret (v : α)
  | thrown
  | more
deriving DecidableEq, Repr

/-- The `result` aggregate built by `fetchAllData` (source lines 780-786);
`account = none` is the initial `{}`. -/
structure APIResult where
  account : Option AccountData := none
  products : List Product := []
  completedDispatches : List Dispatch := []
  devices : List Device := []
  plannedDispatches : List Dispatch := []
deriving DecidableEq, Repr

/-- The product extraction loops of source lines 800-815: every
`agreements[..].product` under every malo of every property. -/
def extractProducts (a : AccountData) : List Product :=
  (a.allProperties.getD []).flatMap fun p =>
    (p.electricityMalos.getD []).flatMap fun m =>
      (m.agreements.getD []).filterMap fun ag => ag.product

/-- Populating the result from a present `data` object (source lines
789-837): each section that is present overwrites the empty default; the
products are extracted only when the account has a non-empty
`allProperties` and at least one product was found (lines 798, 817). -/
def buildResult (d : GqlData) : APIResult :=
  let r0 : APIResult := {}
  let r1 :=
    match d.account with
    | some a =>
      let withAcc := { r0 with account := some a }
      if (a.allProperties.getD []).length > 0 then
        let ps := extractProducts a
        if ps.length > 0 then { withAcc with products := ps } else withAcc
      else withAcc
    | none => r0
  let r2 :=
    match d.devices with
    | some l => { r1 with devices := l }
    | none => r1
  let r3 :=
    match d.completedDispatches with
    | some l => { r2 with completedDispatches := l }
    | none => r2
  match d.plannedDispatches with
  | some l => { r3 with plannedDispatches := l }
  | none => r3

/-- The non-critical filter of source lines 842-849: top-level path is one
of the optional sections and the code is KT-CT-4301. -/
def isNonCriticalError (e : GqlError) : Bool :=
  match e.path.head? with
  | some p =>
    (p == "completedDispatches" || p == "plannedDispatches" || p == "devices")
      && e.errorCode == some NOT_FOUND_CODE
  | none => false

/-- The environment of one `fetchAllData` invocation: the login environment
of its `ensureToken`, the axios environment of its comprehensive query, and
the login environment used if a token-expiry error makes it re-login. -/
structure FetchAllEnv where
  ensureEnv : LoginEnv
  attempts : Nat → AttemptOutcome
  recoveryEnv : LoginEnv

structure FetchAllResult where
  out : OpOut (Option APIResult)
  st : ClientState
  fetchCalls : Nat
  recoveryLogins : Nat
  clears : Nat
deriving Repr

/-- The `for (const error of otherErrors)` scan of source lines 864-876:
each KT-CT-1124 entry clears the token and calls `login()`; the first
successful re-login makes the caller retry the whole fetch (`retry st`),
otherwise the loop finishes and the caller returns its partial result
(`done st`).  The counts are (re-login calls, token clears). -/
inductive ExpiryScanOut where
  | retry (st : ClientState)
  | done (st : ClientState)

def expiryScan (now : Int) (recoveryEnv : LoginEnv) :
    ClientState → List GqlError → ExpiryScanOut × Nat × Nat
  | st, [] => (.done st, 0, 0)
  | st, e :: rest =>
    if e.errorCode == some TOKEN_EXPIRED_CODE then
      let st1 := { st with tok := TokenManager.clear st.tok }
      let l := login st1 now recoveryEnv
      if l.ok then (.retry l.st, 1, 1)
      else
        let (o, lc, cc) := expiryScan now recoveryEnv l.st rest
        (o, lc + 1, cc + 1)
    else expiryScan now recoveryEnv st rest

/-- Source `fetchAllData(accountNumber)` (source lines 755-910), one list entry per
(possibly retried) invocation.  Control flow per invocation:
* a failed `ensureToken` returns null (lines 756-759);
* the whole query is inside try/catch, so a thrown executor call returns
  null (lines 906-909), and so does a JSON-null body (line 774);
* with `data` present the partial result is built; `response.errors &&
  result.account` is then truthy whenever `errors` is present (the initial
  `{}` account is truthy), the critical remainder after filtering the
  non-critical entries is scanned for KT-CT-1124, and a successful re-login
  retries the entire fetch - otherwise the partial result is returned
  (lines 840-880);
* with no `data`, only `errors[0]` is inspected: KT-CT-1124 clears the
  token and re-logs in, retrying on success, and every other case - including
  a failed re-login and an empty errors array - returns null (lines
  881-905). -/
def fetchAllData (now : Int) : ClientState → List FetchAllEnv → FetchAllResult
  | st, [] => { out := .more, st := st, fetchCalls := 0, recoveryLogins := 0, clears := 0 }
  | st, env :: rest =>
    let en := ensureToken st now env.ensureEnv
    if en.ok then
      let tr := executeGraphQLQuery env.attempts 3
      match tr.result with
      | .threwNet =>
        { out := .ret none, st := en.st, fetchCalls := 1, recoveryLogins := 0, clears := 0 }
      | .threwMax =>
        { out := .ret none, st := en.st, fetchCalls := 1, recoveryLogins := 0, clears := 0 }
      | .returned none =>
        { out := .ret none, st := en.st, fetchCalls := 1, recoveryLogins := 0, clears := 0 }
      | .returned (some r) =>
        match r.data with
        | some d =>
          let result := buildResult d
          match r.errors with
          | some es =>
            let others := es.filter (fun e => !(isNonCriticalError e))
            match expiryScan now env.recoveryEnv en.st others with
            | (.retry st2, lc, cc) =>
              let r2 := fetchAllData now st2 rest
              { out := r2.out, st := r2.st, fetchCalls := r2.fetchCalls + 1
              , recoveryLogins := r2.recoveryLogins + lc, clears := r2.clears + cc }
            | (.done st2, lc, cc) =>
              { out := .ret (some result), st := st2, fetchCalls := 1
              , recoveryLogins := lc, clears := cc }
          | none =>
            { out := .ret (some result), st := en.st, fetchCalls := 1
            , recoveryLogins := 0, clears := 0 }
        | none =>
          match r.errors with
          | some es =>
            let e0 := es.head?.getD {}
            if e0.errorCode == some TOKEN_EXPIRED_CODE then
              let st1 := { en.st with tok := TokenManager.clear en.st.tok }
              let l := login st1 now env.recoveryEnv
              if l.ok then
                let r2 := fetchAllData now l.st rest
                { out := r2.out, st := r2.st, fetchCalls := r2.fetchCalls + 1
                , recoveryLogins := r2.recoveryLogins + 1, clears := r2.clears + 1 }
              else
                { out := .ret none, st := l.st, fetchCalls := 1
                , recoveryLogins := 1, clears := 1 }
            else
              { out := .ret none, st := en.st, fetchCalls := 1
              , recoveryLogins := 0, clears := 0 }
          | none =>
            { out := .ret none, st := en.st, fetchCalls := 1
            , recoveryLogins := 0, clears := 0 }
    else
      { out := .ret none, st := en.st, fetchCalls := 0, recoveryLogins := 0, clears := 0 }

/-! ## Narrow fetches (source lines 962-1029) -/

/-- The environment of a narrow (devices / dispatches) fetch. -/
structure NarrowEnv where
  ensureEnv : LoginEnv
  attempts : Nat → AttemptOutcome

structure NarrowResult (α : Type) where
  out : OpOut (Option α)
  st : ClientState
  requests : Nat
deriving Repr

/-- Source `fetchDevices(accountNumber, useCache)` (source lines 962-990): a fresh
cache entry is returned before any token work; otherwise ensure the token
(null on failure), run the devices query, cache and return `data.devices`
when present, null on a throw or any other shape.  `requests` counts the
HTTP requests of both the login and the query executor calls. -/
def fetchDevices (st : ClientState) (now : Int) (useCache : Bool) (env : NarrowEnv) :
    NarrowResult (List Device) :=
  match (if useCache then getFromCache st.cache.devices now else none) with
  | some l => { out := .ret (some l), st := st, requests := 0 }
  | none =>
    let en := ensureToken st now env.ensureEnv
    if en.ok then
      let tr := executeGraphQLQuery env.attempts 3
      let reqs := en.authRequests + tr.requests
      match tr.result with
      | .threwNet => { out := .ret none, st := en.st, requests := reqs }
      | .threwMax => { out := .ret none, st := en.st, requests := reqs }
      | .returned none => { out := .ret none, st := en.st, requests := reqs }
      | .returned (some r) =>
        match r.data with
        | none => { out := .ret none, st := en.st, requests := reqs }
        | some d =>
          match d.devices with
          | none => { out := .ret none, st := en.st, requests := reqs }
          | some l =>
            let st2 := { en.st with
                          cache := { en.st.cache with
                                      devices := setCacheEntry en.st.cache.devices now l } }
            { out := .ret (some l), st := st2, requests := reqs }
    else
      { out := .ret none, st := en.st, requests := en.authRequests }

/-- Source `fetchDispatches(accountNumber, useCache)` (source lines 998-1029):
same shape as `fetchDevices` with the "dispatches" key; any present `data`
is accepted, absent dispatch arrays default to `[]` (lines 1014-1018). -/
def fetchDispatches (st : ClientState) (now : Int) (useCache : Bool) (env : NarrowEnv) :
    NarrowResult Dispatches :=
  match (if useCache then getFromCache st.cache.dispatches now else none) with
  | some v => { out := .ret (some v), st := st, requests := 0 }
  | none =>
    let en := ensureToken st now env.ensureEnv
    if en.ok then
      let tr := executeGraphQLQuery env.attempts 3
      let reqs := en.authRequests + tr.requests
      match tr.result with
      | .threwNet => { out := .ret none, st := en.st, requests := reqs }
      | .threwMax => { out := .ret none, st := en.st, requests := reqs }
      | .returned none => { out := .ret none, st := en.st, requests := reqs }
      | .returned (some r) =>
        match r.data with
        | none => { out := .ret none, st := en.st, requests := reqs }
        | some d =>
          let v : Dispatches :=
            { plannedDispatches := d.plannedDispatches.getD []
            , completedDispatches := d.completedDispatches.getD [] }
          let st2 := { en.st with
                        cache := { en.st.cache with
                                    dispatches := setCacheEntry en.st.cache.dispatches now v } }
          { out := .ret (some v), st := st2, requests := reqs }
    else
      { out := .ret none, st := en.st, requests := en.authRequests }

/-! ## accounts (source lines 702-740) -/

/-- Source `fetchAccountsWithInitialData` (source lines 702-726): the `ensureToken`
result is not checked; the query runs inside try/catch, so throws -
including the member access on a null body at line 709 - yield null; a
missing viewer or an absent/empty accounts array yields null; otherwise the
accounts list is returned. -/
def fetchAccountsWithInitialData (st : ClientState) (now : Int) (env : NarrowEnv) :
    OpOut (Option (List AccountInfo)) × ClientState :=
  let en := ensureToken st now env.ensureEnv
  let tr := executeGraphQLQuery env.attempts 3
  match tr.result with
  | .threwNet => (.ret none, en.st)
  | .threwMax => (.ret none, en.st)
  | .returned none => (.ret none, en.st)
  | .returned (some r) =>
    match r.data with
    | none => (.ret none, en.st)
    | some d =>
      match d.viewer with
      | none => (.ret none, en.st)
      | some v =>
        match v.accounts with
        | none => (.ret none, en.st)
        | some l => if l.length = 0 then (.ret none, en.st) else (.ret (some l), en.st)

/-- Source `accounts()` (source lines 732-740): maps the fetched accounts to their
numbers, but `throw new Error("Failed to fetch accounts")` - uncaught, across
the public boundary - when the fetch returned null. -/
def accountsOp (st : ClientState) (now : Int) (env : NarrowEnv) :
    OpOut (List String) × ClientState :=
  match fetchAccountsWithInitialData st now env with
  | (.ret (some l), st2) => (.ret (l.map AccountInfo.number), st2)
  | (.ret none, st2) => (.thrown, st2)
  | (.thrown, st2) => (.thrown, st2)
  | (.more, st2) => (.more, st2)

/-! ## Mutations (source lines 1056-1199) -/

/-- The environment of one mutation invocation (ensure, mutation query,
re-login after token expiry). -/
structure MutEnv where
  ensureEnv : LoginEnv
  attempts : Nat → AttemptOutcome
  recoveryEnv : LoginEnv

structure MutResult where
  out : OpOut (Option String)
  st : ClientState
deriving Repr

/-- Source `changeDeviceSuspension(deviceId, action)` (source lines 1056-1104), one
list entry per (possibly retried) invocation:
* failed ensure: null, nothing else happens (lines 1057-1060);
* everything else is inside try/catch: a thrown executor call and the
  member access on a null body both land in the catch and return null;
* a response with an `errors` field (even an empty array) takes the error
  branch: KT-CT-1124 at `errors[0]` clears the token and re-logs in,
  retrying the mutation on success; every other case returns null with the
  cache untouched (lines 1076-1094);
* only a response without an `errors` field invalidates the "devices" cache
  entry and returns `data.updateDeviceSmartControl.id || null`, where an
  empty string id is falsy (lines 1096-1099). -/
def changeDeviceSuspension (now : Int) : ClientState → List MutEnv → MutResult
  | st, [] => { out := .more, st := st }
  | st, env :: rest =>
    let en := ensureToken st now env.ensureEnv
    if en.ok then
      let tr := executeGraphQLQuery env.attempts 3
      match tr.result with
      | .threwNet => { out := .ret none, st := en.st }
      | .threwMax => { out := .ret none, st := en.st }
      | .returned none => { out := .ret none, st := en.st }
      | .returned (some r) =>
        match r.errors with
        | some es =>
          let e0 := es.head?.getD {}
          if e0.errorCode == some TOKEN_EXPIRED_CODE then
            let st1 := { en.st with tok := TokenManager.clear en.st.tok }
            let l := login st1 now env.recoveryEnv
            if l.ok then changeDeviceSuspension now l.st rest
            else { out := .ret none, st := l.st }
          else { out := .ret none, st := en.st }
        | none =>
          let st2 := { en.st with cache := invalidateCache en.st.cache (some .devices) }
          let idOut : Option String :=
            match r.data with
            | some d =>
              match d.updateDeviceSmartControl with
              | some u =>
                match u.id with
                | some s => if s = "" then none else some s
                | none => none
              | none => none
            | none => none
          { out := .ret idOut, st := st2 }
    else
      { out := .ret none, st := en.st }

/-- The environment of one `setVehicleChargePreferences` invocation.  The
two `formatTimeToHhMm` calls are pure string parsing that either returns a
formatted time or throws (source lines 1213-1293); their outcomes are
supplied by the environment as `Option String` (`none` = threw). -/
structure PrefEnv where
  ensureEnv : LoginEnv
  fmtWeekday : Option String
  fmtWeekend : Option String
  attempts : Nat → AttemptOutcome
  recoveryEnv : LoginEnv

structure PrefResult where
  out : OpOut Bool
  st : ClientState
deriving Repr

/-- Source `setVehicleChargePreferences(...)` (source lines 1115-1199), one list
entry per (possibly retried) invocation: failed ensure returns false; a
throwing `formatTimeToHhMm` is caught by the outer catch and returns false
(lines 1195-1198); the mutation runs inside the inner try/catch, so throws
and null bodies return false; a response with an `errors` field returns
false, except that KT-CT-1124 at `errors[0]` clears the token, re-logs in
and retries on success (lines 1158-1188); a response without errors returns
true (line 1190). -/
def setVehicleChargePreferences (now : Int) : ClientState → List PrefEnv → PrefResult
  | st, [] => { out := .more, st := st }
  | st, env :: rest =>
    let en := ensureToken st now env.ensureEnv
    if en.ok then
      match env.fmtWeekday, env.fmtWeekend with
      | none, _ => { out := .ret false, st := en.st }
      | some _, none => { out := .ret false, st := en.st }
      | some _, some _ =>
        let tr := executeGraphQLQuery env.attempts 3
        match tr.result with
        | .threwNet => { out := .ret false, st := en.st }
        | .threwMax => { out := .ret false, st := en.st }
        | .returned none => { out := .ret false, st := en.st }
        | .returned (some r) =>
          match r.errors with
          | some es =>
            let e0 := es.head?.getD {}
            if e0.errorCode == some TOKEN_EXPIRED_CODE then
              let st1 := { en.st with tok := TokenManager.clear en.st.tok }
              let l := login st1 now env.recoveryEnv
              if l.ok then setVehicleChargePreferences now l.st rest
              else { out := .ret false, st := l.st }
            else { out := .ret false, st := en.st }
          | none => { out := .ret true, st := en.st }
    else
      { out := .ret false, st := en.st }

/-! ## Derived notions and concrete fixtures used by the theorems -/

/-- The backoff schedule contract: the first sleep is `d`, and each
subsequent sleep is the previous one doubled and capped at 30000 ms. -/
def backoffFrom : Int → List Int → Prop
  | _, [] => True
  | d, x :: xs => x = d ∧ backoffFrom (nextDelay d) xs

/-- The interleaving of two concurrent `ensureToken()` calls with no valid
token: caller A finds `_refreshLock` free and acquires it; caller B arrives
while the login of A is still in flight, so B observes `refreshLock = true`
and `envB.afterWait` is the token state B observes once its fixed 2-second
wait ends.  The value is the total number of authentication HTTP requests
the two callers send. -/
def concurrentAuthRequests (st : ClientState) (now : Int) (envA envB : LoginEnv) : Nat :=
  (ensureToken st now envA).authRequests +
    (ensureToken { st with refreshLock := true } now envB).authRequests

/-- A token far from expiry (epoch seconds). -/
def validTok : TokenState := { token := some "tok", expiry := some 2000000000 }

/-- A fresh client: no token, lock free, empty cache. -/
def st0 : ClientState := { tok := {}, refreshLock := false, cache := initCache }

/-- A login response body carrying a token with a payload expiry far in the
future. -/
def freshKrakenToken : KrakenToken :=
  { token := some "tok2", payload := some { exp := some 2000000000 } }

def tokenBody : Body :=
  some { data := some { obtainKrakenToken := some freshKrakenToken } }

/-- A login environment whose first authentication attempt succeeds, and
whose 2-second wait observes no token at all (the login in flight on the
other task has not finished). -/
def alwaysOkLoginEnv : LoginEnv :=
  { execEnvs := fun _ _ => .ok tokenBody
  , decoded := fun _ => none
  , afterWait := {} }

/-- A response reporting only the token-expiry code, with no data. -/
def expiredResponse : Response :=
  { data := none, errors := some [{ errorCode := some TOKEN_EXPIRED_CODE }] }

/-- A `fetchAllData` invocation environment in which the comprehensive query
always reports token expiry with no data, and every (re-)login succeeds. -/
def expiryRound : FetchAllEnv :=
  { ensureEnv := alwaysOkLoginEnv
  , attempts := fun _ => .ok (some expiredResponse)
  , recoveryEnv := alwaysOkLoginEnv }

/-- A response body whose errors array carries the rate-limit code. -/
def rateLimitedBody : Body :=
  some { data := none, errors := some [{ errorCode := some RATE_LIMIT_CODE }] }

/-- An axios environment that is rate-limited on every attempt. -/
def envRateLimited : Nat → AttemptOutcome := fun _ => .ok rateLimitedBody

/-- The comprehensive-query data of the C4 scenario: an account and nothing
else. -/
def accountOnlyData : GqlData :=
  { account := some { id := "A-1", allProperties := some [] } }

/-- The non-critical error of the C4 scenario: `path = ["devices"]` with the
resource-not-found code. -/
def noDevicesError : GqlError :=
  { errorCode := some NOT_FOUND_CODE, path := ["devices"] }

/-- The C4 response: account data present, a single non-critical error. -/
def accountOnlyResponse : Response :=
  { data := some accountOnlyData, errors := some [noDevicesError] }

/-- A client state with a valid token and an empty cache. -/
def stValid : ClientState := { tok := validTok, refreshLock := false, cache := initCache }

/-- A placeholder login environment for invocations whose ensure step finds
the token already valid (its fields are never consulted there). -/
def idleLoginEnv : LoginEnv :=
  { execEnvs := fun _ _ => .netErr, decoded := fun _ => none, afterWait := {} }

/-- A devices-query response carrying one device. -/
def devicesResponse : Response :=
  { data := some { devices := some ["dev1"] } }

/-- The narrow-fetch environment of the C8 scenario: token already valid,
devices query succeeds at the first attempt. -/
def devicesEnv : NarrowEnv :=
  { ensureEnv := idleLoginEnv, attempts := fun _ => .ok (some devicesResponse) }

/-- A mutation response with a present but empty errors array (the C9
counterexample input). -/
def emptyErrorsResponse : Response :=
  { data := some { updateDeviceSmartControl := some { id := some "dev1" } }
  , errors := some [] }

/-- A client state with a valid token whose devices cache entry was written
at timestamp 5 (so an invalidation would be visible as timestamp 0). -/
def stWithDevCache : ClientState :=
  { tok := validTok, refreshLock := false
  , cache := { initCache with
                devices := { data := some ["dev1"], timestamp := 5, ttl := 300000 } } }

/-- The C9 counterexample invocation: mutation answered by a response whose
errors array is present but empty. -/
def emptyErrorsMutEnv : MutEnv :=
  { ensureEnv := idleLoginEnv
  , attempts := fun _ => .ok (some emptyErrorsResponse)
  , recoveryEnv := idleLoginEnv }

/-- An accounts-query environment whose response has data but no viewer
(the C5 counterexample input: `fetchAccountsWithInitialData` logs and
returns null, so `accounts()` throws). -/
def noViewerEnv : NarrowEnv :=
  { ensureEnv := idleLoginEnv
  , attempts := fun _ => .ok (some { data := some {} }) }

/-- The C4 scenario invocation environment: comprehensive query answered by
`accountOnlyResponse` at the first attempt. -/
def c4FetchEnv : FetchAllEnv :=
  { ensureEnv := idleLoginEnv
  , attempts := fun _ => .ok (some accountOnlyResponse)
  , recoveryEnv := idleLoginEnv }

/-- A successful mutation response: no errors field at all. -/
def okMutResponse : Response :=
  { data := some { updateDeviceSmartControl := some { id := some "dev1" } } }

/-- A mutation invocation environment answered by `okMutResponse`. -/
def okMutEnv : MutEnv :=
  { ensureEnv := idleLoginEnv
  , attempts := fun _ => .ok (some okMutResponse)
  , recoveryEnv := idleLoginEnv }

/-- A client state with a valid token, a devices cache entry written at
timestamp 5 and a dispatches cache entry written at timestamp 7. -/
def stWithBothCaches : ClientState :=
  { tok := validTok, refreshLock := false
  , cache := { account := { data := none, timestamp := 0, ttl := 3600000 }
             , devices := { data := some ["dev1"], timestamp := 5, ttl := 300000 }
             , dispatches := { data := some {}, timestamp := 7, ttl := 60000 } } }

/-- The login environment observed by a second caller whose 2-second wait
ends after the first login completed: the fresh valid token is visible. -/
def lockObservesFreshTok : LoginEnv :=
  { alwaysOkLoginEnv with afterWait := { token := some "tok2", expiry := some 2000000000 } }

/-- The state reached from `st0` after one `expiryRound` of `fetchAllData`:
the re-login installed the fresh token and released the lock.  One further
`expiryRound` reproduces exactly this state, which makes the unbounded
retry loop visible. -/
def stExpiryLoop : ClientState :=
  { tok := { token := some "tok2", expiry := some 2000000000 }
  , refreshLock := false, cache := initCache }

/-! ## Executor lemmas -/

/-- One-step unfolding of the executor loop. -/
theorem execLoop_succ (env : Nat → AttemptOutcome) (m fuel i : Nat) (d : Int) :
    execLoop env m (fuel + 1) i d =
      if retryTrigger (env i) = true ∧ i + 1 ≤ m then
        { result := (execLoop env m fuel (i + 1) (nextDelay d)).result
        , requests := (execLoop env m fuel (i + 1) (nextDelay d)).requests + 1
        , delays := d :: (execLoop env m fuel (i + 1) (nextDelay d)).delays }
      else { result := terminalOf (env i), requests := 1, delays := [] } := rfl

theorem execLoop_backoff (env : Nat → AttemptOutcome) (m : Nat) :
    ∀ (fuel i : Nat) (d : Int), backoffFrom d (execLoop env m fuel i d).delays := by
  intro fuel
  induction fuel with
  | zero => intro i d; simp [execLoop, backoffFrom]
  | succ fuel ih =>
    intro i d
    simp only [execLoop]
    split
    · exact ⟨rfl, ih (i + 1) (nextDelay d)⟩
    · simp [backoffFrom]

theorem execLoop_requests_le (env : Nat → AttemptOutcome) (m : Nat) :
    ∀ (fuel i : Nat) (d : Int), (execLoop env m fuel i d).requests ≤ fuel := by
  intro fuel
  induction fuel with
  | zero => intro i d; simp [execLoop]
  | succ fuel ih =>
    intro i d
    simp only [execLoop]
    split
    · have := ih (i + 1) (nextDelay d)
      simpa using Nat.succ_le_succ this
    · simp

theorem execLoop_trigger (env : Nat → AttemptOutcome) (m : Nat) :
    ∀ (fuel i : Nat) (d : Int) (k : Nat),
      k + 1 < (execLoop env m fuel i d).requests → retryTrigger (env (i + k)) = true := by
  intro fuel
  induction fuel with
  | zero => intro i d k h; simp [execLoop] at h
  | succ fuel ih =>
    intro i d k h
    simp only [execLoop] at h
    by_cases hc : retryTrigger (env i) = true ∧ i + 1 ≤ m
    · rw [if_pos hc] at h
      simp only at h
      match k with
      | 0 => simpa using hc.1
      | k + 1 =>
        have hk : k + 1 < (execLoop env m fuel (i + 1) (nextDelay d)).requests := by
          omega
        have := ih (i + 1) (nextDelay d) k hk
        rwa [show i + (k + 1) = i + 1 + k by omega]
    · rw [if_neg hc] at h
      have h1 : k + 1 < 1 := h
      omega

theorem execLoop_all_triggers (env : Nat → AttemptOutcome) (m : Nat)
    (hall : ∀ j, retryTrigger (env j) = true) :
    ∀ (fuel i : Nat) (d : Int), 1 ≤ fuel → i + fuel = m + 1 →
      (execLoop env m fuel i d).result = terminalOf (env m) ∧
      (execLoop env m fuel i d).requests = fuel := by
  intro fuel
  induction fuel with
  | zero => intro i d h; omega
  | succ fuel ih =>
    intro i d _ hsum
    rw [execLoop_succ]
    by_cases hf : fuel = 0
    · subst hf
      have hi : i = m := by omega
      subst hi
      rw [if_neg (by rintro ⟨-, h⟩; omega)]
      exact ⟨rfl, rfl⟩
    · rw [if_pos ⟨hall i, by omega⟩]
      have h2 := ih (i + 1) (nextDelay d) (by omega) (by omega)
      exact ⟨h2.1, by simp [h2.2]⟩

/-- C3 (confirmed): in `_executeGraphQLQuery` a retry is triggered only by a
transport-level failure or a response whose errors array carries the
rate-limit code KT-CT-1199; the sleeps between attempts start at 1000 ms and
double each retry, capped at 30000 ms; an outcome that is not a retry
trigger (in particular a response carrying only other error codes) is
returned to the caller at once without retrying; and when all outcomes are
retry triggers the budget is exhausted after maxRetries + 1 requests and the
last outcome is returned (or, for a transport failure, raised) rather than
retried further. -/
theorem executeGraphQLQuery_retry_policy (env : Nat → AttemptOutcome) (maxRetries : Nat) :
    backoffFrom 1000 (executeGraphQLQuery env maxRetries).delays ∧
    (executeGraphQLQuery env maxRetries).requests ≤ maxRetries + 1 ∧
    (∀ k, k + 1 < (executeGraphQLQuery env maxRetries).requests →
      retryTrigger (env k) = true) ∧
    (retryTrigger (env 0) = false →
      executeGraphQLQuery env maxRetries =
        { result := terminalOf (env 0), requests := 1, delays := [] }) ∧
    ((∀ j, retryTrigger (env j) = true) →
      (executeGraphQLQuery env maxRetries).result = terminalOf (env maxRetries) ∧
      (executeGraphQLQuery env maxRetries).requests = maxRetries + 1) := by
  refine ⟨execLoop_backoff env maxRetries (maxRetries + 1) 0 1000,
          execLoop_requests_le env maxRetries (maxRetries + 1) 0 1000,
          fun k h => by simpa using execLoop_trigger env maxRetries (maxRetries + 1) 0 1000 k h,
          fun h0 => ?_,
          fun hall => execLoop_all_triggers env maxRetries hall (maxRetries + 1) 0 1000
            (by omega) (by omega)⟩
  show execLoop env maxRetries (maxRetries + 1) 0 1000 = _
  rw [execLoop_succ, if_neg (by simp [h0])]

/-- Witness for C3 at a concrete always-rate-limited environment with the
default budget 3: four requests, sleeps following the doubling schedule, and
the last rate-limited response returned. -/
theorem executeGraphQLQuery_retry_policy_witness :
    (executeGraphQLQuery envRateLimited 3).result = .returned rateLimitedBody ∧
    (executeGraphQLQuery envRateLimited 3).requests = 4 ∧
    backoffFrom 1000 (executeGraphQLQuery envRateLimited 3).delays := by
  have h := executeGraphQLQuery_retry_policy envRateLimited 3
  have h5 := h.2.2.2.2 (fun j => rfl)
  exact ⟨h5.1, h5.2, h.1⟩

/-! ## TokenManager theorems -/

/-- C6 (confirmed): `isValid` is false whenever the token value or the
expiry is absent - in particular after `clear()` - and otherwise (for a
non-empty token value and, at any non-negative clock, any stored expiry) it
is true exactly when `now < expiry - 300`; concretely a token expiring in
3600 s is valid and one expiring in 299 s is not. -/
theorem isValid_margin_spec :
    (∀ (s : TokenState) (now : Int),
      s.token = none ∨ s.token = some "" ∨ s.expiry = none →
      TokenManager.isValid s now = false) ∧
    (∀ (s : TokenState) (now : Int),
      TokenManager.isValid (TokenManager.clear s) now = false) ∧
    (∀ (t : String) (e now : Int), t ≠ "" → 0 ≤ now →
      (TokenManager.isValid { token := some t, expiry := some e } now = true ↔
        now < e - 300)) ∧
    (∀ now : Int, 0 ≤ now →
      TokenManager.isValid { token := some "tok", expiry := some (now + 3600) } now = true) ∧
    (∀ now : Int, 0 ≤ now →
      TokenManager.isValid { token := some "tok", expiry := some (now + 299) } now = false) := by
  refine ⟨?_, ?_, ?_, ?_, ?_⟩
  · rintro ⟨tok, exp⟩ now (h | h | h) <;> subst h
    · rfl
    · cases exp <;> rfl
    · cases tok <;> rfl
  · intro s now; rfl
  · intro t e now ht hnow
    by_cases he : e = 0
    · subst he
      simp only [TokenManager.isValid, TOKEN_REFRESH_MARGIN]
      simp only [or_true, if_true]
      constructor
      · intro h; exact absurd h (by simp)
      · intro h; omega
    · simp only [TokenManager.isValid, TOKEN_REFRESH_MARGIN]
      rw [if_neg (by rintro (h | h); exacts [ht h, he h])]
      simp
  · intro now hnow
    simp only [TokenManager.isValid, TOKEN_REFRESH_MARGIN]
    rw [if_neg (by rintro (h | h); exacts [absurd h (by decide), by omega])]
    simp only [decide_eq_true_eq]
    omega
  · intro now hnow
    simp only [TokenManager.isValid, TOKEN_REFRESH_MARGIN]
    by_cases he : now + 299 = 0
    · rw [if_pos (Or.inr he)]
    · rw [if_neg (by rintro (h | h); exacts [absurd h (by decide), he h])]
      simp only [decide_eq_false_iff_not]
      omega

/-- Witness for C6 at concrete clocks: a token with 1000 s remaining is
valid, the 3600 s instance is valid at clock 1000, the 299 s instance is
invalid at clock 1000. -/
theorem isValid_margin_spec_witness :
    TokenManager.isValid { token := some "t", expiry := some 2000 } 1000 = true ∧
    TokenManager.isValid { token := some "tok", expiry := some (1000 + 3600) } 1000 = true ∧
    TokenManager.isValid { token := some "tok", expiry := some (1000 + 299) } 1000 = false := by
  refine ⟨(isValid_margin_spec.2.2.1 "t" 2000 1000 (by decide) (by omega)).mpr (by omega),
          isValid_margin_spec.2.2.2.1 1000 (by omega),
          isValid_margin_spec.2.2.2.2 1000 (by omega)⟩

/-- C7 counterexample: the claim fails on two concrete `setToken` calls.
A token whose decoded payload carries no exp claim (`jwt.decode` succeeds
but `decoded.exp` is undefined) stores an absent expiry - the claim says
the stored expiry is never null.  And a supplied expiry of 0 is falsy in
the `if (expiry)` guard, so it is not stored verbatim: with an undecodable
token the fallback `now + 3600` is stored instead. -/
theorem setToken_expiry_counterexample :
    (TokenManager.setToken 1000 (some { exp := none }) "tok" none).expiry = none ∧
    (TokenManager.setToken 1000 none "tok" (some 0)).expiry = some 4600 ∧
    (TokenManager.setToken 1000 none "tok" (some 0)).expiry ≠ some 0 := by
  exact ⟨rfl, rfl, by decide⟩

/-- C7 as amended: a supplied non-zero expiry is stored verbatim; a missing
(or zero, hence falsy) expiry argument stores the decoded exp claim, which
is absent when the payload has none - the token is then always treated as
invalid, never as valid; when decoding fails the stored expiry is
`now + 3600` (the auto-refresh interval in seconds), and the token is again
invalid at any clock past `now + 3300`. -/
theorem setToken_spec_amended :
    (∀ (now : Int) (dec : Option JwtPayload) (t : String) (e : Int), e ≠ 0 →
      TokenManager.setToken now dec t (some e) = { token := some t, expiry := some e }) ∧
    (∀ (now : Int) (p : JwtPayload) (t : String) (arg : Option Int),
      arg = none ∨ arg = some 0 →
      TokenManager.setToken now (some p) t arg = { token := some t, expiry := p.exp }) ∧
    (∀ (now : Int) (t : String) (arg : Option Int), arg = none ∨ arg = some 0 →
      TokenManager.setToken now none t arg = { token := some t, expiry := some (now + 3600) }) ∧
    (∀ (now later : Int) (t : String), now + 3300 ≤ later →
      TokenManager.isValid (TokenManager.setToken now none t none) later = false) ∧
    (∀ (now later : Int) (t : String),
      TokenManager.isValid (TokenManager.setToken now (some { exp := none }) t none) later
        = false) := by
  refine ⟨?_, ?_, ?_, ?_, ?_⟩
  · intro now dec t e he
    simp only [TokenManager.setToken, TokenManager.numTruthy]
    rw [if_pos (by simpa using he)]
  · rintro now p t arg (h | h) <;> subst h <;> rfl
  · rintro now t arg (h | h) <;> subst h <;> rfl
  · intro now later t h
    have hred : TokenManager.setToken now none t none
        = { token := some t, expiry := some (now + 3600) } := rfl
    rw [hred]
    simp only [TokenManager.isValid, TOKEN_REFRESH_MARGIN]
    by_cases ht : t = ""
    · rw [if_pos (Or.inl ht)]
    · by_cases he : now + 3600 = 0
      · rw [if_pos (Or.inr he)]
      · rw [if_neg (by rintro (hx | hx); exacts [ht hx, he hx])]
        simp only [decide_eq_false_iff_not]
        omega
  · intro now later t; rfl

/-- Witness for C7 as amended, at concrete inputs. -/
theorem setToken_spec_amended_witness :
    TokenManager.setToken 50 none "tok" (some 7) = { token := some "tok", expiry := some 7 } ∧
    TokenManager.setToken 50 (some { exp := some 12 }) "tok" none
      = { token := some "tok", expiry := some 12 } ∧
    TokenManager.setToken 50 none "tok" none = { token := some "tok", expiry := some (50 + 3600) } ∧
    TokenManager.isValid (TokenManager.setToken 50 none "tok" none) 99999 = false := by
  refine ⟨setToken_spec_amended.1 50 none "tok" 7 (by decide),
          setToken_spec_amended.2.1 50 { exp := some 12 } "tok" none (Or.inl rfl),
          setToken_spec_amended.2.2.1 50 "tok" none (Or.inl rfl),
          setToken_spec_amended.2.2.2.1 50 99999 "tok" (by omega)⟩

/-! ## Single-flight login (C1) -/

/-- C1 (code bug): the interleaving of two concurrent `ensureToken()` calls
with no valid token.  When the first login is still in flight once the
second caller finishes its fixed 2-second wait (it observes no valid token,
`alwaysOkLoginEnv.afterWait` being empty), the second caller does NOT stand
down: it acquires the already-set boolean flag and issues its own
authentication request, for a total of 2 - the claim says exactly 1.  Only
when the wait happens to observe the freshly installed valid token does the
pair send a single request. -/
theorem concurrent_login_two_requests :
    concurrentAuthRequests st0 1000 alwaysOkLoginEnv alwaysOkLoginEnv = 2 ∧
    concurrentAuthRequests st0 1000 alwaysOkLoginEnv lockObservesFreshTok = 1 := ⟨rfl, rfl⟩

/-! ## Unbounded token-expiry retry in fetchAllData (C2) -/

/-- From the fresh state, one invocation answered by a token-expiry error
with no data clears the token, re-logs in and retries: the call reduces to
the same call on the remaining rounds from `stExpiryLoop`. -/
theorem fetchAllData_expiry_step0 (rounds : List FetchAllEnv) :
    (fetchAllData 1000 st0 (expiryRound :: rounds)).out =
      (fetchAllData 1000 stExpiryLoop rounds).out := rfl

/-- From `stExpiryLoop`, a token-expiry round reproduces `stExpiryLoop`:
each retried invocation clears the token, re-logs in successfully and
recurses again. -/
theorem fetchAllData_expiry_step (rounds : List FetchAllEnv) :
    (fetchAllData 1000 stExpiryLoop (expiryRound :: rounds)).out =
      (fetchAllData 1000 stExpiryLoop rounds).out := rfl

theorem fetchAllData_expiry_loop (n : Nat) :
    (fetchAllData 1000 stExpiryLoop (List.replicate n expiryRound)).out = .more := by
  induction n with
  | zero => rfl
  | succ n ih => rw [List.replicate_succ, fetchAllData_expiry_step]; exact ih

/-- C2 (code bug): when every comprehensive-query response reports the
token-expiry code KT-CT-1124 with no data and every re-login succeeds,
`fetchAllData` clears the token and re-logs in on each round (2 rounds give
2 clears and 2 re-logins) but never terminates with the failure sentinel:
after the 2 supplied rounds it is about to issue a third fetch (`.more`),
and for every number n of supplied rounds it is still retrying - the retry
depth is unbounded, not bounded by one as the claim states. -/
theorem fetchAllData_repeated_expiry_unbounded :
    (fetchAllData 1000 st0 [expiryRound, expiryRound]).out = .more ∧
    (fetchAllData 1000 st0 [expiryRound, expiryRound]).fetchCalls = 2 ∧
    (fetchAllData 1000 st0 [expiryRound, expiryRound]).clears = 2 ∧
    (fetchAllData 1000 st0 [expiryRound, expiryRound]).recoveryLogins = 2 ∧
    (∀ n : Nat, (fetchAllData 1000 st0 (List.replicate n expiryRound)).out = .more) := by
  refine ⟨rfl, rfl, rfl, rfl, ?_⟩
  intro n
  cases n with
  | zero => rfl
  | succ n => rw [List.replicate_succ, fetchAllData_expiry_step0, fetchAllData_expiry_loop n]

/-! ## Cache-first narrow fetches (C10) -/

/-- C10 (confirmed): a `fetchDevices` / `fetchDispatches` call with
`useCache = true` that finds a fresh cache entry (non-null stored data and
age below the TTL) returns the cached value immediately: zero HTTP
requests, the state - token included - untouched, and the outcome the same
for every network environment, so no token-validity check, login or request
can have been consulted; the token state inside `st` is arbitrary, in
particular absent or expired. -/
theorem cache_hit_no_token_check_no_http (st : ClientState) (now : Int) (env : NarrowEnv)
    (l : List Device) (v : Dispatches) :
    (st.cache.devices.data = some l →
      now - st.cache.devices.timestamp < st.cache.devices.ttl →
      fetchDevices st now true env = { out := .ret (some l), st := st, requests := 0 }) ∧
    (st.cache.dispatches.data = some v →
      now - st.cache.dispatches.timestamp < st.cache.dispatches.ttl →
      fetchDispatches st now true env = { out := .ret (some v), st := st, requests := 0 }) := by
  constructor
  · intro h1 h2
    have hv : getFromCache st.cache.devices now = some l := by
      simp [getFromCache, isCacheValid, h1, h2]
    simp [fetchDevices, hv]
  · intro h1 h2
    have hv : getFromCache st.cache.dispatches now = some v := by
      simp [getFromCache, isCacheValid, h1, h2]
    simp [fetchDispatches, hv]

/-- Witness for C10: on `stWithBothCaches` (both entries fresh at clock
100) both narrow fetches return the cached values with zero requests even
with an all-failing network environment. -/
theorem cache_hit_no_token_check_no_http_witness :
    fetchDevices stWithBothCaches 100 true noViewerEnv
      = { out := .ret (some ["dev1"]), st := stWithBothCaches, requests := 0 } ∧
    fetchDispatches stWithBothCaches 100 true noViewerEnv
      = { out := .ret (some {}), st := stWithBothCaches, requests := 0 } := by
  exact ⟨(cache_hit_no_token_check_no_http stWithBothCaches 100 noViewerEnv ["dev1"] {}).1
            rfl (by decide),
         (cache_hit_no_token_check_no_http stWithBothCaches 100 noViewerEnv ["dev1"] {}).2
            rfl (by decide)⟩

/-! ## Partial results on non-critical errors (C4) -/

theorem filter_nonCritical_nil (es : List GqlError)
    (h : ∀ e ∈ es, isNonCriticalError e = true) :
    es.filter (fun e => !(isNonCriticalError e)) = [] := by
  induction es with
  | nil => rfl
  | cons e rest ih =>
    have he := h e (by simp)
    simp [List.filter_cons, he, ih (fun x hx => h x (by simp [hx]))]

theorem buildResult_fields (d : GqlData) (a : AccountData)
    (hacc : d.account = some a) (hdev : d.devices = none) :
    (buildResult d).account = some a ∧ (buildResult d).devices = [] := by
  unfold buildResult
  rw [hacc, hdev]
  cases hc : d.completedDispatches <;> cases hp : d.plannedDispatches <;>
    simp only [] <;> split <;> (try split) <;> exact ⟨rfl, rfl⟩

/-- C4 (confirmed): when the comprehensive query answers with `data.account`
present, no devices section, and an errors array all of whose entries name
an optional section with the resource-not-found code KT-CT-4301,
`fetchAllData` returns the partial result - account populated, devices
empty - in a single fetch, with no retry and no failure sentinel. -/
theorem fetchAllData_noncritical_errors_ok (st : ClientState) (now : Int) (env : FetchAllEnv)
    (rest : List FetchAllEnv) (d : GqlData) (a : AccountData) (es : List GqlError)
    (hok : (ensureToken st now env.ensureEnv).ok = true)
    (hresp : (executeGraphQLQuery env.attempts 3).result =
      ExecResult.returned (some { data := some d, errors := some es }))
    (hacc : d.account = some a) (hdev : d.devices = none)
    (hnc : ∀ e ∈ es, isNonCriticalError e = true) :
    (fetchAllData now st (env :: rest)).out = .ret (some (buildResult d)) ∧
    (buildResult d).account = some a ∧
    (buildResult d).devices = [] ∧
    (fetchAllData now st (env :: rest)).fetchCalls = 1 := by
  have hfilter := filter_nonCritical_nil es hnc
  have hfields := buildResult_fields d a hacc hdev
  have hmain : fetchAllData now st (env :: rest) =
      { out := .ret (some (buildResult d)), st := (ensureToken st now env.ensureEnv).st
      , fetchCalls := 1, recoveryLogins := 0, clears := 0 } := by
    simp [fetchAllData, hok, hresp, hfilter, expiryScan]
  exact ⟨by rw [hmain], hfields.1, hfields.2, by rw [hmain]⟩

/-- Witness for C4 at the concrete scenario response (`data.account`
present, `errors = [{path:["devices"], code:"KT-CT-4301"}]`). -/
theorem fetchAllData_noncritical_errors_ok_witness :
    (fetchAllData 999 stValid [c4FetchEnv]).out = .ret (some (buildResult accountOnlyData)) ∧
    (buildResult accountOnlyData).account = some { id := "A-1", allProperties := some [] } ∧
    (buildResult accountOnlyData).devices = [] := by
  have h := fetchAllData_noncritical_errors_ok stValid 999 c4FetchEnv []
    accountOnlyData { id := "A-1", allProperties := some [] } [noDevicesError]
    rfl rfl rfl rfl (by decide)
  exact ⟨h.1, h.2.1, h.2.2.1⟩

/-! ## Device cache TTL and explicit invalidation (C8) -/

/-- C8 (confirmed): with a valid token and a stale (or empty) devices cache
entry, a first `fetchDevices(useCache = true)` whose query succeeds at the
first attempt issues exactly one HTTP request and stores the list at the
current clock with the entry TTL unchanged; a second call inside the TTL
window issues zero requests and returns the cached list unchanged, whatever
its network environment; `invalidateCache("devices")` preserves the entry
data and its TTL but zeroes the timestamp (infinitely stale for any clock
past the TTL); and a third call after the invalidation issues one HTTP
request again even though it is still inside the window relative to the
first fetch. -/
theorem fetchDevices_cache_ttl_invalidate (st : ClientState) (t0 t1 : Int)
    (env1 env2 env3 : NarrowEnv) (l1 l3 : List Device)
    (hv0 : TokenManager.isValid st.tok t0 = true)
    (hmiss : isCacheValid st.cache.devices t0 = false)
    (hresp1 : executeGraphQLQuery env1.attempts 3 =
      { result := .returned (some { data := some { devices := some l1 } })
      , requests := 1, delays := [] })
    (hwin : t1 - t0 < st.cache.devices.ttl)
    (hv1 : TokenManager.isValid st.tok t1 = true)
    (hstale : st.cache.devices.ttl ≤ t1)
    (hresp3 : executeGraphQLQuery env3.attempts 3 =
      { result := .returned (some { data := some { devices := some l3 } })
      , requests := 1, delays := [] }) :
    fetchDevices st t0 true env1 =
      { out := .ret (some l1)
      , st := { st with cache := { st.cache with
          devices := { data := some l1, timestamp := t0, ttl := st.cache.devices.ttl } } }
      , requests := 1 } ∧
    (fetchDevices (fetchDevices st t0 true env1).st t1 true env2 =
      { out := .ret (some l1), st := (fetchDevices st t0 true env1).st, requests := 0 }) ∧
    (invalidateCache (fetchDevices st t0 true env1).st.cache (some .devices)).devices =
      { data := some l1, timestamp := 0, ttl := st.cache.devices.ttl } ∧
    (fetchDevices
      { (fetchDevices st t0 true env1).st with
          cache := invalidateCache (fetchDevices st t0 true env1).st.cache (some .devices) }
      t1 true env3).requests = 1 := by
  have hg0 : getFromCache st.cache.devices t0 = none := by
    simp [getFromCache, hmiss]
  have hens0 : ensureToken st t0 env1.ensureEnv = { ok := true, st := st, authRequests := 0 } := by
    unfold ensureToken
    rw [if_pos hv0]
  have hc1 : fetchDevices st t0 true env1 =
      { out := .ret (some l1)
      , st := { st with cache := { st.cache with
          devices := { data := some l1, timestamp := t0, ttl := st.cache.devices.ttl } } }
      , requests := 1 } := by
    simp [fetchDevices, hg0, hens0, hresp1, setCacheEntry]
  refine ⟨hc1, ?_, ?_, ?_⟩
  · rw [hc1]
    have hfresh : getFromCache
        ({ st with cache := { st.cache with
            devices := { data := some l1, timestamp := t0, ttl := st.cache.devices.ttl } } }
          : ClientState).cache.devices t1 = some l1 := by
      simp [getFromCache, isCacheValid, hwin]
    simp [fetchDevices, hfresh]
  · rw [hc1]
    rfl
  · rw [hc1]
    have hstale2 : getFromCache
        { data := some l1, timestamp := 0, ttl := st.cache.devices.ttl } t1 = none := by
      simp only [getFromCache, isCacheValid]
      rw [if_neg (by simp only [decide_eq_true_eq]; omega)]
    have hens1 : ∀ s : ClientState, s.tok = st.tok →
        ensureToken s t1 env3.ensureEnv = { ok := true, st := s, authRequests := 0 } := by
      intro s hs
      unfold ensureToken
      rw [hs, if_pos hv1]
    simp [fetchDevices, invalidateCache, invalidateEntry, hstale2, hens1, hresp3]

/-- Witness for C8 at concrete clocks: first fetch at 1000000, second at
1200000 (inside the 300000 ms TTL), invalidation, third fetch at 1200000. -/
theorem fetchDevices_cache_ttl_invalidate_witness :
    fetchDevices stValid 1000000 true devicesEnv =
      { out := .ret (some ["dev1"])
      , st := { stValid with cache := { stValid.cache with
          devices := { data := some ["dev1"], timestamp := 1000000
                     , ttl := stValid.cache.devices.ttl } } }
      , requests := 1 } ∧
    fetchDevices (fetchDevices stValid 1000000 true devicesEnv).st 1200000 true devicesEnv =
      { out := .ret (some ["dev1"])
      , st := (fetchDevices stValid 1000000 true devicesEnv).st, requests := 0 } ∧
    (fetchDevices
      { (fetchDevices stValid 1000000 true devicesEnv).st with
          cache := invalidateCache
            (fetchDevices stValid 1000000 true devicesEnv).st.cache (some .devices) }
      1200000 true devicesEnv).requests = 1 := by
  have h := fetchDevices_cache_ttl_invalidate stValid 1000000 1200000
    devicesEnv devicesEnv devicesEnv ["dev1"] ["dev1"]
    (by decide) (by decide) rfl (by decide) (by decide) (by decide) rfl
  exact ⟨h.1, h.2.1, h.2.2.2⟩

/-! ## login never touches the cache -/

theorem loginLoop_cache (now : Int) (env : LoginEnv) (st : ClientState) :
    ∀ (fuel i acc : Nat), (loginLoop now env st fuel i acc).st.cache = st.cache := by
  intro fuel
  induction fuel with
  | zero => intro i acc; rfl
  | succ fuel ih =>
    intro i acc
    simp only [loginLoop]
    repeat' first
      | exact ih _ _
      | rfl
      | split

theorem login_cache (st : ClientState) (now : Int) (env : LoginEnv) :
    (login st now env).st.cache = st.cache := by
  unfold login
  split
  · rfl
  · split
    · split
      · rfl
      · exact loginLoop_cache now env _ LOGIN_RETRIES 0 0
    · exact loginLoop_cache now env _ LOGIN_RETRIES 0 0

theorem ensureToken_cache (st : ClientState) (now : Int) (env : LoginEnv) :
    (ensureToken st now env).st.cache = st.cache := by
  unfold ensureToken
  split
  · rfl
  · exact login_cache st now env

/-! ## Cache invalidation in changeDeviceSuspension (C9) -/

/-- C9 counterexample: a mutation response whose `errors` field is a present
but EMPTY array contains no errors, yet `if (response.errors)` is truthy on
an empty array, so the call takes the error branch: it returns null and does
NOT invalidate the devices cache entry (written at timestamp 5, still 5
afterwards).  This falsifies the claimed "invalidated if and only if the
mutation response contains no errors". -/
theorem changeDeviceSuspension_empty_errors_counterexample :
    (emptyErrorsResponse.errors.getD []).length = 0 ∧
    (changeDeviceSuspension 999 stWithDevCache [emptyErrorsMutEnv]).st.cache.devices.timestamp
      = 5 ∧
    (changeDeviceSuspension 999 stWithDevCache [emptyErrorsMutEnv]).st.cache
      = stWithDevCache.cache ∧
    (changeDeviceSuspension 999 stWithDevCache [emptyErrorsMutEnv]).out = .ret none :=
  ⟨rfl, rfl, rfl, rfl⟩

/-- C9 as amended: per invocation, the devices cache entry is invalidated
iff the mutation response has NO `errors` field (a present-but-empty errors
array counts as an error response and leaves the cache unchanged).  In
detail: on a failed ensure, on a thrown transport error, on any error
response that is not a token-expiry retry, and on a token-expiry response
whose re-login fails, the whole cache is left unchanged and null is
returned; a token-expiry response with a successful re-login makes the call
equal to the retried invocation; and only an errors-free response
invalidates the devices entry - timestamp zeroed, data and TTL kept. -/
theorem changeDeviceSuspension_invalidate_iff (st : ClientState) (now : Int) (env : MutEnv)
    (rest : List MutEnv) :
    ((ensureToken st now env.ensureEnv).ok = false →
      (changeDeviceSuspension now st (env :: rest)).st.cache = st.cache ∧
      (changeDeviceSuspension now st (env :: rest)).out = .ret none) ∧
    ((ensureToken st now env.ensureEnv).ok = true →
      (executeGraphQLQuery env.attempts 3).result = .threwNet →
      (changeDeviceSuspension now st (env :: rest)).st.cache = st.cache ∧
      (changeDeviceSuspension now st (env :: rest)).out = .ret none) ∧
    (∀ (r : Response) (es : List GqlError),
      (ensureToken st now env.ensureEnv).ok = true →
      (executeGraphQLQuery env.attempts 3).result = .returned (some r) →
      r.errors = some es →
      ((es.head?.getD {}).errorCode == some TOKEN_EXPIRED_CODE) = false →
      (changeDeviceSuspension now st (env :: rest)).st.cache = st.cache ∧
      (changeDeviceSuspension now st (env :: rest)).out = .ret none) ∧
    (∀ (r : Response) (es : List GqlError),
      (ensureToken st now env.ensureEnv).ok = true →
      (executeGraphQLQuery env.attempts 3).result = .returned (some r) →
      r.errors = some es →
      ((es.head?.getD {}).errorCode == some TOKEN_EXPIRED_CODE) = true →
      (login { (ensureToken st now env.ensureEnv).st with
                 tok := TokenManager.clear (ensureToken st now env.ensureEnv).st.tok }
          now env.recoveryEnv).ok = false →
      (changeDeviceSuspension now st (env :: rest)).st.cache = st.cache ∧
      (changeDeviceSuspension now st (env :: rest)).out = .ret none) ∧
    (∀ (r : Response) (es : List GqlError),
      (ensureToken st now env.ensureEnv).ok = true →
      (executeGraphQLQuery env.attempts 3).result = .returned (some r) →
      r.errors = some es →
      ((es.head?.getD {}).errorCode == some TOKEN_EXPIRED_CODE) = true →
      (login { (ensureToken st now env.ensureEnv).st with
                 tok := TokenManager.clear (ensureToken st now env.ensureEnv).st.tok }
          now env.recoveryEnv).ok = true →
      changeDeviceSuspension now st (env :: rest) =
        changeDeviceSuspension now
          (login { (ensureToken st now env.ensureEnv).st with
                     tok := TokenManager.clear (ensureToken st now env.ensureEnv).st.tok }
              now env.recoveryEnv).st rest) ∧
    (∀ r : Response,
      (ensureToken st now env.ensureEnv).ok = true →
      (executeGraphQLQuery env.attempts 3).result = .returned (some r) →
      r.errors = none →
      (changeDeviceSuspension now st (env :: rest)).st.cache.devices
        = invalidateEntry st.cache.devices) := by
  refine ⟨?_, ?_, ?_, ?_, ?_, ?_⟩
  · intro hok
    simp only [changeDeviceSuspension]
    rw [if_neg (by simp [hok])]
    exact ⟨ensureToken_cache st now env.ensureEnv, rfl⟩
  · intro hok hthrew
    simp only [changeDeviceSuspension]
    rw [if_pos hok, hthrew]
    exact ⟨ensureToken_cache st now env.ensureEnv, rfl⟩
  · intro r es hok hresp herr hcode
    simp only [changeDeviceSuspension]
    rw [if_pos hok, hresp]
    simp only [herr]
    rw [if_neg (by simp [hcode])]
    exact ⟨ensureToken_cache st now env.ensureEnv, rfl⟩
  · intro r es hok hresp herr hcode hlogin
    simp only [changeDeviceSuspension]
    rw [if_pos hok, hresp]
    simp only [herr]
    rw [if_pos (by simp [hcode]), if_neg (by simp [hlogin])]
    constructor
    · rw [login_cache, ensureToken_cache]
    · rfl
  · intro r es hok hresp herr hcode hlogin
    simp only [changeDeviceSuspension]
    rw [if_pos hok, hresp]
    simp only [herr]
    rw [if_pos (by simp [hcode]), if_pos hlogin]
  · intro r hok hresp herr
    simp only [changeDeviceSuspension]
    rw [if_pos hok, hresp]
    simp only [herr]
    show (invalidateCache (ensureToken st now env.ensureEnv).st.cache (some .devices)).devices
      = invalidateEntry st.cache.devices
    rw [show ∀ c : Cache, (invalidateCache c (some .devices)).devices = invalidateEntry c.devices
          from fun c => rfl,
        ensureToken_cache]

/-- Witness for C9 as amended: a successful mutation (no errors field)
zeroes the devices cache timestamp while keeping the data and TTL, and an
error response (the empty-array one) leaves the cache unchanged. -/
theorem changeDeviceSuspension_invalidate_iff_witness :
    (changeDeviceSuspension 999 stWithDevCache [okMutEnv]).st.cache.devices
      = invalidateEntry stWithDevCache.cache.devices ∧
    (changeDeviceSuspension 999 stWithDevCache [emptyErrorsMutEnv]).st.cache
      = stWithDevCache.cache := by
  refine ⟨(changeDeviceSuspension_invalidate_iff stWithDevCache 999 okMutEnv []).2.2.2.2.2
            okMutResponse rfl rfl rfl,
          ((changeDeviceSuspension_invalidate_iff stWithDevCache 999 emptyErrorsMutEnv []).2.2.1
            emptyErrorsResponse [] rfl rfl rfl rfl).1⟩

/-! ## Failure sentinels at the public boundary (C5) -/

theorem fetchAllData_no_throw (now : Int) (envs : List FetchAllEnv) :
    ∀ st : ClientState, (fetchAllData now st envs).out ≠ .thrown := by
  induction envs with
  | nil => intro st h; exact absurd h (by simp [fetchAllData])
  | cons env rest ih =>
    intro st
    simp only [fetchAllData]
    repeat' first
      | exact ih _
      | simp
      | split

theorem fetchDevices_no_throw (st : ClientState) (now : Int) (uc : Bool) (env : NarrowEnv) :
    (fetchDevices st now uc env).out ≠ .thrown := by
  unfold fetchDevices
  repeat' first
    | simp
    | split

theorem fetchDispatches_no_throw (st : ClientState) (now : Int) (uc : Bool) (env : NarrowEnv) :
    (fetchDispatches st now uc env).out ≠ .thrown := by
  unfold fetchDispatches
  repeat' first
    | simp
    | split

theorem changeDeviceSuspension_no_throw (now : Int) (envs : List MutEnv) :
    ∀ st : ClientState, (changeDeviceSuspension now st envs).out ≠ .thrown := by
  induction envs with
  | nil => intro st h; exact absurd h (by simp [changeDeviceSuspension])
  | cons env rest ih =>
    intro st
    simp only [changeDeviceSuspension]
    repeat' first
      | exact ih _
      | simp
      | split

theorem setVehicleChargePreferences_no_throw (now : Int) (envs : List PrefEnv) :
    ∀ st : ClientState, (setVehicleChargePreferences now st envs).out ≠ .thrown := by
  induction envs with
  | nil => intro st h; exact absurd h (by simp [setVehicleChargePreferences])
  | cons env rest ih =>
    intro st
    simp only [setVehicleChargePreferences]
    repeat' first
      | exact ih _
      | simp
      | split

theorem fetchAccounts_ret_shape (st : ClientState) (now : Int) (env : NarrowEnv) :
    (fetchAccountsWithInitialData st now env).1 ≠ .thrown ∧
    (fetchAccountsWithInitialData st now env).1 ≠ .more := by
  simp only [fetchAccountsWithInitialData]
  repeat' first
    | simp
    | split

theorem accountsOp_thrown_iff (st : ClientState) (now : Int) (env : NarrowEnv) :
    (accountsOp st now env).1 = .thrown ↔
      (fetchAccountsWithInitialData st now env).1 = .ret none := by
  have hs := fetchAccounts_ret_shape st now env
  unfold accountsOp
  rcases hp : fetchAccountsWithInitialData st now env with ⟨o, st2⟩
  rw [hp] at hs
  try rw [hp]
  cases o with
  | ret v =>
    cases v with
    | none => simp
    | some l => simp
  | thrown => exact absurd rfl hs.1
  | more => exact absurd rfl hs.2

/-- C5 counterexample: `accounts()` throws across the public boundary on an
expected failure - a response whose data lacks the viewer makes
`fetchAccountsWithInitialData` return null, and `accounts()` then executes
`throw new Error("Failed to fetch accounts")` instead of returning a
sentinel. -/
theorem accounts_throws_on_failed_fetch :
    (fetchAccountsWithInitialData stValid 999 noViewerEnv).1 = .ret none ∧
    (accountsOp stValid 999 noViewerEnv).1 = OpOut.thrown := ⟨rfl, rfl⟩

/-- C5 as amended: every public operation except `accounts()` reports
failure by returning false or a null sentinel and never throws across the
public boundary, for every state and environment (`login` returns a plain
boolean by construction of its model - all its throw sites are caught in
the source attempt loop); `accounts()` however throws exactly when the
underlying accounts fetch returns the null sentinel. -/
theorem public_ops_failure_sentinels :
    (∀ (now : Int) (st : ClientState) (envs : List FetchAllEnv),
      (fetchAllData now st envs).out ≠ .thrown) ∧
    (∀ (st : ClientState) (now : Int) (uc : Bool) (env : NarrowEnv),
      (fetchDevices st now uc env).out ≠ .thrown) ∧
    (∀ (st : ClientState) (now : Int) (uc : Bool) (env : NarrowEnv),
      (fetchDispatches st now uc env).out ≠ .thrown) ∧
    (∀ (now : Int) (st : ClientState) (envs : List MutEnv),
      (changeDeviceSuspension now st envs).out ≠ .thrown) ∧
    (∀ (now : Int) (st : ClientState) (envs : List PrefEnv),
      (setVehicleChargePreferences now st envs).out ≠ .thrown) ∧
    (∀ (st : ClientState) (now : Int) (env : NarrowEnv),
      ((accountsOp st now env).1 = .thrown ↔
        (fetchAccountsWithInitialData st now env).1 = .ret none)) :=
  ⟨fun now st envs => fetchAllData_no_throw now envs st,
   fetchDevices_no_throw,
   fetchDispatches_no_throw,
   fun now st envs => changeDeviceSuspension_no_throw now envs st,
   fun now st envs => setVehicleChargePreferences_no_throw now envs st,
   accountsOp_thrown_iff⟩

/-- Witness for C5 as amended at concrete inputs. -/
theorem public_ops_failure_sentinels_witness :
    (fetchAllData 999 stValid []).out ≠ OpOut.thrown ∧
    ((accountsOp stValid 999 noViewerEnv).1 = .thrown ↔
      (fetchAccountsWithInitialData stValid 999 noViewerEnv).1 = .ret none) :=
  ⟨public_ops_failure_sentinels.1 999 stValid [],
   public_ops_failure_sentinels.2.2.2.2.2 stValid 999 noViewerEnv⟩

end OctopusGermany
